import Mathlib

/-!
Verification of the coverage-report orchestration script (coverage_report.py).

Python strings manipulated by the script are modelled as lists of
characters (`Str`), Python exceptions as `Except String`, and the host
system (PATH lookup, subprocess exit codes, the platform check and the
filesystem tree walked by `Path.rglob`) as an explicit environment
structure.  Every definition below is translated from the source file;
definitions whose name ends in `_spec` restate a sentence of the
specification instead and are compared with the source-derived ones.
-/

/-- Python `str` values are modelled as lists of characters. -/
abbrev Str := List Char

/-- One entry of the filesystem tree that `Path(start_path).rglob` walks:
its directory part, its final component (`Path.name`), whether it is a
regular file, and whether the execute permission bit is set. -/
structure Entry where
  dir : Str
  name : Str
  isFile : Bool
  executable : Bool
deriving DecidableEq

/-- The host system as seen by the script: which executables resolve on
PATH (`subprocess.run` raises `FileNotFoundError` exactly when the first
argument does not), the exit status of each invoked argument list, and
the result of `platform.system() == "Windows"`. -/
structure Env where
  onPath : Str → Bool
  exitCode : List Str → Nat
  isWindows : Bool

/-- `str(path)` of an entry: directory, separator, final component. -/
def entryPath (f : Entry) : Str := f.dir ++ '/' :: f.name

/-- Membership test `c in s` for a single character, as in `':' in path`. -/
def hasChar (c : Char) : Str → Bool
  | [] => false
  | d :: t => d == c || hasChar c t

/-- Prepend a character to the first chunk of a split result. -/
def consHead (c : Char) : List Str → List Str
  | [] => [[c]]
  | t :: ts => (c :: t) :: ts

/-- Python `str.split(sep)` for a one-character separator. -/
def pySplitChar (sep : Char) : Str → List Str
  | [] => [[]]
  | c :: rest =>
    if c == sep then [] :: pySplitChar sep rest
    else consHead c (pySplitChar sep rest)

/-- Python `str.lower()`; the script only lowercases ASCII data. -/
def pyLower (s : Str) : Str := s.map Char.toLower

/-- Python `str.replace("\\", "/")` — both arguments are one character,
so the replacement is a character map. -/
def pyReplaceBS (s : Str) : Str := s.map (fun c => if c == '\\' then '/' else c)

/-- The message of the `UnboundLocalError` raised by
`log(verbose, tokens)` when `tokens` was never assigned. -/
def unboundTokensMsg : String :=
  "UnboundLocalError: cannot access local variable tokens where it is not associated with a value"

/-- `abs_path_in_wsl` (coverage_report.py lines 38-49).  When the path
contains a colon it is split at every colon and rebuilt as
`"/mnt/" + tokens[0].lower() + tokens[1]` with backslashes replaced by
forward slashes.  When it does not, the unconditional
`log(verbose, tokens)` call evaluates the never-assigned local `tokens`
and raises `UnboundLocalError`, whatever the value of `verbose`. -/
def abs_path_in_wsl (path : Str) (verbose : Bool := false) : Except String Str :=
  if hasChar ':' path then
    match pySplitChar ':' path with
    | t0 :: t1 :: _ =>
      Except.ok (pyReplaceBS ("/mnt/".toList ++ pyLower t0 ++ t1))
    | _ => Except.error "IndexError: list index out of range"
  else
    Except.error unboundTokensMsg

/-- Index of the last occurrence of a character in a string, when any. -/
def lastIdxOf (c : Char) : Str → Option Nat
  | [] => none
  | d :: t =>
    match lastIdxOf c t with
    | some i => some (i + 1)
    | none => if d == c then some 0 else none

/-- `PurePath.suffix` of a final component: the part from the last dot
on, provided that dot is neither the first nor the last character. -/
def pySuffix (name : Str) : Str :=
  match lastIdxOf '.' name with
  | some i => if 0 < i ∧ i < name.length - 1 then name.drop i else []
  | none => []

/-- `PurePath.stem`: the final component with `pySuffix` removed. -/
def pyStem (name : Str) : Str := name.take (name.length - (pySuffix name).length)

/-- `PurePath.with_suffix(new).name`: the suffix, when present, is
replaced, otherwise the new suffix is appended. -/
def pyWithSuffix (name : Str) (newSuffix : Str) : Str := pyStem name ++ newSuffix

/-- `os.path.splitext(p)[0]`: cut at the last dot of the final
component unless that component consists of dots up to it.  The model
uses the forward-slash separator of the posix flavour. -/
def splitextRoot (p : Str) : Str :=
  match lastIdxOf '.' p with
  | none => p
  | some i =>
    let start := match lastIdxOf '/' p with
      | some j => j + 1
      | none => 0
    if start ≤ i ∧ ((p.drop start).take (i - start)).any (fun c => c != '.') then p.take i
    else p

/-- The constant `FILENAME_FRAGMENT = "test"` of the script. -/
def FILENAME_FRAGMENT : Str := "test".toList

/-- Prefix test on character lists. -/
def isPre : Str → Str → Bool
  | [], _ => true
  | _ :: _, [] => false
  | a :: as, b :: bs => a == b && isPre as bs

/-- Substring containment, Python `needle in hay`. -/
def hasSub (needle : Str) : Str → Bool
  | [] => needle.isEmpty
  | c :: t => isPre needle (c :: t) || hasSub needle t

/-- Suffix test on character lists. -/
def endsWithL (tail s : Str) : Bool := isPre tail.reverse s.reverse

/-- Glob matching as used by the script, which only ever passes `"*"`
or `"*.<ext>"` to `Path.rglob`. -/
def globMatch (pattern : Str) (name : Str) : Bool :=
  if pattern == "*".toList then true else endsWithL (pattern.drop 1) name

/-- `find_files` (lines 118-119): walk the tree below `start_path`
(the `fs` list) with the glob pattern, keeping files whose stem
contains the fragment case-insensitively. -/
def find_files (fs : List Entry) (file_pattern : Str) (extension : Str) : List Entry :=
  (fs.filter (fun file => globMatch extension file.name)).filter
    (fun file => hasSub (pyLower file_pattern) (pyLower (pyStem file.name)))

/-- `find_test_apps` (lines 122-138): on Windows collect `*.exe`
matches, otherwise collect every rglob entry that is a regular file
with the execute bit; an empty result exits the run. -/
def find_test_apps (env : Env) (fs : List Entry) : Except String (List Entry) :=
  let test_apps :=
    if env.isWindows then find_files fs FILENAME_FRAGMENT ("*.exe".toList)
    else (find_files fs FILENAME_FRAGMENT ("*".toList)).filter
      (fun file => file.isFile && file.executable)
  if test_apps.isEmpty then Except.error "No test application found!"
  else Except.ok test_apps

/-- Effectful map over `Except`, the sequencing of a Python `for` loop
whose body may raise: the first raise aborts the remaining iterations. -/
def exMapM {α β : Type} (f : α → Except String β) : List α → Except String (List β)
  | [] => Except.ok []
  | x :: xs =>
    match f x with
    | Except.error e => Except.error e
    | Except.ok y =>
      match exMapM f xs with
      | Except.error e => Except.error e
      | Except.ok ys => Except.ok (y :: ys)

/-- Did the `Except` computation succeed? -/
def exIsOk {α : Type} : Except String α → Bool
  | Except.ok _ => true
  | Except.error _ => false

/-- The message standing for an uncaught `subprocess.CalledProcessError`
raised by `subprocess.run(..., check=True)` on a non-zero exit. -/
def calledProcessErrorMsg : String := "subprocess.CalledProcessError"

/-- `check_if_app_exists` (lines 52-66): run `name --version` (behind
`wsl` when requested); only a `FileNotFoundError` on the invoked
executable — `args[0]` — makes it return false.  The exit status of the
probe subprocess (`Env.exitCode`) is never consulted. -/
def check_if_app_exists (env : Env) (executable_name : Str) (use_wsl : Bool) : Bool :=
  if use_wsl then env.onPath ("wsl".toList) else env.onPath executable_name

/-- `detect_tools` (lines 68-98), written as a guard chain equivalent to
the source control flow: clang tools are always required; on Windows,
`wsl` is additionally required and its presence sets `use_wsl`; the
selected report tool is then probed (through wsl when `use_wsl`). -/
def detect_tools (env : Env) (tool : Str) : Except String Bool :=
  if !(check_if_app_exists env ("llvm-profdata".toList) false
      && check_if_app_exists env ("llvm-cov".toList) false) then
    Except.error "Clang tools not found! Make sure clang tools are added to system path."
  else if env.isWindows && !check_if_app_exists env ("wsl".toList) false then
    Except.error "WSL not found! Generating coverage reports require use of Linux tools. Make sure WSL was set up."
  else
    let use_wsl := env.isWindows
    if tool == "lcov".toList && !check_if_app_exists env ("lcov".toList) use_wsl then
      Except.error "Linux tools not found! Make sure lcov package is installed."
    else if tool == "gcovr".toList && !check_if_app_exists env ("gcovr".toList) use_wsl then
      Except.error "Linux tools not found! Make sure gcovr package is installed."
    else Except.ok use_wsl

/-- The process environment dictionary passed to `subprocess.run`. -/
abbrev EnvMap := List (Str × Str)

/-- Dictionary update `env[k] = v`, modelled up to `envLookup`. -/
def envSet (m : EnvMap) (k v : Str) : EnvMap := (k, v) :: m

/-- Dictionary lookup `env[k]`. -/
def envLookup (k : Str) : EnvMap → Option Str
  | [] => none
  | kv :: t => if kv.1 == k then some kv.2 else envLookup k t

/-- The body of the loop of `run_test_apps` (lines 141-154) for one
discovered binary: for clang the copied environment receives
`LLVM_PROFILE_FILE = app.with_suffix(".profraw").name`, for any other
compiler the copy is passed as is; the app itself is run with
`check=True`.  The result is the command run and its environment. -/
def run_one_test_app (env : Env) (parentEnv : EnvMap) (compiler : Str) (app : Entry) :
    Except String (Str × EnvMap) :=
  let procEnv :=
    if pyLower compiler == "clang".toList then
      envSet parentEnv ("LLVM_PROFILE_FILE".toList) (pyWithSuffix app.name (".profraw".toList))
    else parentEnv
  if env.exitCode [entryPath app] == 0 then Except.ok (entryPath app, procEnv)
  else Except.error calledProcessErrorMsg

/-- `run_test_apps` (lines 141-154): run every discovered binary in
sequence; a non-zero exit aborts the loop at once. -/
def run_test_apps (env : Env) (parentEnv : EnvMap) (applications : List Entry)
    (compiler : Str) : Except String (List (Str × EnvMap)) :=
  exMapM (run_one_test_app env parentEnv compiler) applications

/-- `exclude_path` (lines 157-161). -/
def exclude_path (arguments : List Str) (exclude_name : Str) : List Str :=
  if exclude_name == ([] : Str) then arguments
  else arguments ++ ["--exclude".toList, exclude_name]

/-- `os.path.join`, modelled with the forward-slash separator; joined
paths only flow into argument strings and into `abs_path_in_wsl`, which
normalizes either separator. -/
def pathJoin (a b : Str) : Str := a ++ '/' :: b

/-- `generate_profdata` (lines 164-174): merge each discovered
`.profraw` into a `.profdata` with `llvm-profdata merge`, `check=True`.
Returns the argument lists that were invoked. -/
def generate_profdata (env : Env) (fs : List Entry) (start_path : Str) :
    Except String (List (List Str)) :=
  let profraw_files := find_files fs FILENAME_FRAGMENT ("*.profraw".toList)
  if profraw_files.isEmpty then Except.error "No .profraw files found!"
  else
    exMapM (fun profraw =>
      let args := ["llvm-profdata".toList, "merge".toList, "-sparse".toList, entryPath profraw,
        "-o".toList, splitextRoot (entryPath profraw) ++ ".profdata".toList]
      if env.exitCode args == 0 then Except.ok args
      else Except.error calledProcessErrorMsg) profraw_files

/-- `generate_lcov` (lines 177-188): after checking that `.profdata`
files exist, export lcov data for every application, `check=True`. -/
def generate_lcov (env : Env) (fs : List Entry) (applications : List Entry)
    (start_path : Str) : Except String (List (List Str)) :=
  let profdata_files := find_files fs FILENAME_FRAGMENT ("*.profdata".toList)
  if profdata_files.isEmpty then Except.error "No .profdata files found! Exiting!"
  else
    exMapM (fun app =>
      let args := ["llvm-cov".toList, "export".toList, "--format=lcov".toList, entryPath app,
        "-instr-profile=".toList ++ splitextRoot (entryPath app) ++ ".profdata".toList]
      if env.exitCode args == 0 then Except.ok args
      else Except.error calledProcessErrorMsg) applications

/-- `generate_info_clang` (lines 191-216): merge every discovered
`.lcov` file into one info file with `lcov -a ...`; under wsl the tool
is invoked behind `wsl` and the output path and every input path are
translated first.  Returns the final argument list. -/
def generate_info_clang (env : Env) (fs : List Entry) (start_path coverage_report_dir
    coverage_report_name : Str) (use_wsl : Bool) : Except String (List Str) :=
  let lcov_files := find_files fs FILENAME_FRAGMENT ("*.lcov".toList)
  if lcov_files.isEmpty then Except.error "No .profdata files found!"
  else
    let output_file0 := pathJoin coverage_report_dir coverage_report_name
    let base := ["lcov".toList, "--function-coverage".toList, "--branch-coverage".toList]
    (if use_wsl then (abs_path_in_wsl output_file0).map (fun o => ("wsl".toList :: base, o))
     else Except.ok (base, output_file0)).bind (fun p =>
      (exMapM (fun file =>
          let line := pyReplaceBS (entryPath file)
          if use_wsl then abs_path_in_wsl line else Except.ok line) lcov_files).bind
        (fun lines =>
          let args := p.1 ++ (lines.map (fun l => ["-a".toList, l])).flatten
            ++ ["--output-file".toList, p.2]
          if env.exitCode args == 0 then Except.ok args
          else Except.error calledProcessErrorMsg))

/-- The message of the `UnboundLocalError` raised by
`args.insert(0, "wsl")` when `args` is assigned only further down. -/
def unboundArgsMsg : String :=
  "UnboundLocalError: cannot access local variable args where it is not associated with a value"

/-- `generate_info_gcc` (lines 219-246).  Both guards search for
`*.gcda` — the second one, reported as the `.gcno` check, repeats the
`.gcda` search.  Under wsl, `args.insert(0, "wsl")` executes before
`args` is assigned and raises `UnboundLocalError`. -/
def generate_info_gcc (env : Env) (fs : List Entry) (start_path coverage_report_dir
    coverage_report_name : Str) (use_wsl : Bool) : Except String (List Str) :=
  let gcda_files := find_files fs FILENAME_FRAGMENT ("*.gcda".toList)
  if gcda_files.isEmpty then Except.error "No .gcda files found!"
  else
    let gcno_files := find_files fs FILENAME_FRAGMENT ("*.gcda".toList)
    if gcno_files.isEmpty then Except.error "No .gcno files found!"
    else
      let output_file := pathJoin coverage_report_dir coverage_report_name
      if use_wsl then Except.error unboundArgsMsg
      else
        let args := ["lcov".toList, "--function-coverage".toList, "--branch-coverage".toList,
          "--capture".toList, "--directory".toList, start_path,
          "--no-external".toList, "--output-file".toList, output_file,
          "--ignore-errors".toList, "mismatch".toList]
        if env.exitCode args == 0 then Except.ok args
        else Except.error calledProcessErrorMsg

/-- `generate_gcovr_report` (lines 280-303).  Same two guards (and the
same repeated `.gcda` search) and the same `args.insert` before the
assignment of `args` under wsl. -/
def generate_gcovr_report (env : Env) (fs : List Entry) (start_path coverage_report_dir
    exclude_name : Str) (use_wsl : Bool) : Except String (List Str) :=
  let gcda_files := find_files fs FILENAME_FRAGMENT ("*.gcda".toList)
  if gcda_files.isEmpty then Except.error "No .gcda files found!"
  else
    let gcno_files := find_files fs FILENAME_FRAGMENT ("*.gcda".toList)
    if gcno_files.isEmpty then Except.error "No .gcno files found!"
    else
      let output_file := pathJoin coverage_report_dir ("index.html".toList)
      if use_wsl then Except.error unboundArgsMsg
      else
        let args := ["gcovr".toList, "-r".toList, start_path, "--html".toList,
          "--html-details".toList, "-o".toList, output_file,
          "--txt-metric".toList, "branch".toList]
        let args := exclude_path args exclude_name
        if env.exitCode args == 0 then Except.ok args
        else Except.error calledProcessErrorMsg

/-- `generate_html_report` (lines 306-325): run `genhtml` on the
merged info file, `check=True`; under wsl the tool is invoked behind
`wsl` and both the input file and the output directory are translated
first (`os.path.join` with a single argument returns it unchanged). -/
def generate_html_report (env : Env) (coverage_report_dir coverage_report_name
    exclude_name : Str) (use_wsl : Bool) : Except String (List Str) :=
  let input_file0 := pathJoin coverage_report_dir coverage_report_name
  let output_dir0 := coverage_report_dir
  let args0 := exclude_path
    ["genhtml".toList, "--function-coverage".toList, "--branch-coverage".toList] exclude_name
  (if use_wsl then
      (abs_path_in_wsl input_file0).bind (fun i =>
        (abs_path_in_wsl output_dir0).map (fun o => ("wsl".toList :: args0, i, o)))
    else Except.ok (args0, input_file0, output_dir0)).bind (fun p =>
    let args := p.1 ++ [p.2.1, "--output-directory=".toList ++ p.2.2]
    if env.exitCode args == 0 then Except.ok args else Except.error calledProcessErrorMsg)

/-- The argument list `generate_profdata` invokes for one raw file. -/
def profdata_merge_args (profraw : Entry) : List Str :=
  ["llvm-profdata".toList, "merge".toList, "-sparse".toList, entryPath profraw,
    "-o".toList, splitextRoot (entryPath profraw) ++ ".profdata".toList]

/-- The argument list `generate_lcov` invokes for one application. -/
def lcov_export_args (app : Entry) : List Str :=
  ["llvm-cov".toList, "export".toList, "--format=lcov".toList, entryPath app,
    "-instr-profile=".toList ++ splitextRoot (entryPath app) ++ ".profdata".toList]

/-- The argument list `generate_info_clang` invokes when the wsl layer
is off. -/
def info_clang_args (fs : List Entry) (coverage_report_dir coverage_report_name : Str) :
    List Str :=
  ["lcov".toList, "--function-coverage".toList, "--branch-coverage".toList]
    ++ ((find_files fs FILENAME_FRAGMENT ("*.lcov".toList)).map
        (fun file => ["-a".toList, pyReplaceBS (entryPath file)])).flatten
    ++ ["--output-file".toList, pathJoin coverage_report_dir coverage_report_name]

/-- The argument list `generate_info_gcc` invokes when the wsl layer
is off. -/
def info_gcc_args (start_path coverage_report_dir coverage_report_name : Str) : List Str :=
  ["lcov".toList, "--function-coverage".toList, "--branch-coverage".toList,
    "--capture".toList, "--directory".toList, start_path,
    "--no-external".toList, "--output-file".toList,
    pathJoin coverage_report_dir coverage_report_name,
    "--ignore-errors".toList, "mismatch".toList]

/-- The argument list `generate_gcovr_report` invokes when the wsl
layer is off. -/
def gcovr_args (start_path coverage_report_dir exclude_name : Str) : List Str :=
  exclude_path
    ["gcovr".toList, "-r".toList, start_path, "--html".toList,
      "--html-details".toList, "-o".toList, pathJoin coverage_report_dir ("index.html".toList),
      "--txt-metric".toList, "branch".toList] exclude_name

/-- The argument list `generate_html_report` invokes when the wsl
layer is off. -/
def html_args (coverage_report_dir coverage_report_name exclude_name : Str) : List Str :=
  exclude_path
      ["genhtml".toList, "--function-coverage".toList, "--branch-coverage".toList] exclude_name
    ++ [pathJoin coverage_report_dir coverage_report_name,
      "--output-directory=".toList ++ coverage_report_dir]

/-- Does the string start with the marker `"SF:"`? -/
def startsSF (s : Str) : Bool :=
  match s with
  | c1 :: c2 :: c3 :: _ => c1 == 'S' && c2 == 'F' && c3 == ':'
  | _ => false

/-- Does the string contain the marker `"SF:"` anywhere, Python
`"SF:" in line`? -/
def containsSF (s : Str) : Bool :=
  match s with
  | c1 :: c2 :: c3 :: r => (c1 == 'S' && c2 == 'F' && c3 == ':') || containsSF (c2 :: c3 :: r)
  | _ => false

/-- Python `line.split("SF:")`: scan left to right, cutting at each
non-overlapping occurrence of the marker. -/
def splitSF (s : Str) : List Str :=
  match s with
  | [] => [[]]
  | c1 :: c2 :: c3 :: r =>
    if c1 == 'S' && c2 == 'F' && c3 == ':' then [] :: splitSF r
    else consHead c1 (splitSF (c2 :: c3 :: r))
  | c :: rest => consHead c (splitSF rest)

/-- The per-line step of the rewriting loop at the end of
`generate_info` (lines 261-277): a line containing `"SF:"` is split at
the marker, the portion `tokens[1]` is translated and the line is
rebuilt as the marker followed by the translation; other lines are
written back as they are. -/
def rewrite_sf_line (line : Str) : Except String Str :=
  if containsSF line then
    match splitSF line with
    | _ :: t1 :: _ => (abs_path_in_wsl t1).map (fun p => 'S' :: 'F' :: ':' :: p)
    | _ => Except.error "IndexError: list index out of range"
  else Except.ok line

/-- The whole rewriting pass of `generate_info` over the lines read
from the report file. -/
def generate_info_rewrite (lines : List Str) : Except String (List Str) :=
  exMapM rewrite_sf_line lines

/-- Modelled from the spec: one file matches discovery when its stem —
the base name without the final extension — contains the fragment
case-insensitively and, for executable discovery, it has the execute
bit set (Unix) or the `.exe` extension (Windows). -/
def discovery_spec_pred (isWindows : Bool) (f : Entry) : Bool :=
  hasSub (pyLower FILENAME_FRAGMENT) (pyLower (pyStem f.name)) &&
    (if isWindows then endsWithL (".exe".toList) f.name else f.isFile && f.executable)

/-- Modelled from the spec: discovery returns every file matched by
`discovery_spec_pred` and errors out exactly when there is none. -/
def find_test_apps_spec (env : Env) (fs : List Entry) : Except String (List Entry) :=
  let matches_l := fs.filter (discovery_spec_pred env.isWindows)
  if matches_l.isEmpty then Except.error "No test application found!"
  else Except.ok matches_l

theorem globMatch_star (n : Str) : globMatch ("*".toList) n = true := rfl

/-- The source discovery agrees everywhere with the single-predicate
specification reading once "base name" is read as the pathlib stem. -/
theorem find_test_apps_eq_spec (env : Env) (fs : List Entry) :
    find_test_apps env fs = find_test_apps_spec env fs := by
  have h : (if env.isWindows then find_files fs FILENAME_FRAGMENT ("*.exe".toList)
      else (find_files fs FILENAME_FRAGMENT ("*".toList)).filter
        (fun file => file.isFile && file.executable))
      = fs.filter (discovery_spec_pred env.isWindows) := by
    cases hW : env.isWindows
    · show ((fs.filter _).filter _).filter _ = _
      rw [List.filter_filter, List.filter_filter]
      refine List.filter_congr (fun f _ => ?_)
      simp only [discovery_spec_pred, globMatch_star, Bool.and_true, if_neg, Bool.false_eq_true,
        not_false_iff, Bool.if_false_left, Bool.if_false_right, ite_false, if_false]
      cases f.isFile <;> cases f.executable
        <;> cases hasSub (pyLower FILENAME_FRAGMENT) (pyLower (pyStem f.name)) <;> rfl
    · show (fs.filter _).filter _ = _
      rw [List.filter_filter]
      refine List.filter_congr (fun f _ => ?_)
      rfl
  simp only [find_test_apps, find_test_apps_spec]
  rw [h]

theorem hasChar_append (c : Char) (a b : Str) :
    hasChar c (a ++ b) = (hasChar c a || hasChar c b) := by
  induction a with
  | nil => rfl
  | cons d t ih => simp [hasChar, ih, Bool.or_assoc]

theorem hasChar_self_cons (c : Char) (r : Str) : hasChar c (c :: r) = true := by
  simp [hasChar]

theorem pySplitChar_of_not_mem (sep : Char) (s : Str) (h : hasChar sep s = false) :
    pySplitChar sep s = [s] := by
  induction s with
  | nil => rfl
  | cons d t ih =>
    simp only [hasChar, Bool.or_eq_false_iff] at h
    rw [pySplitChar, if_neg, ih h.2]
    · rfl
    · simp [h.1]

theorem pySplitChar_append (sep : Char) (d r : Str) (h : hasChar sep d = false) :
    pySplitChar sep (d ++ sep :: r) = d :: pySplitChar sep r := by
  induction d with
  | nil => simp [pySplitChar]
  | cons c t ih =>
    simp only [hasChar, Bool.or_eq_false_iff] at h
    rw [List.cons_append, pySplitChar, if_neg, ih h.2]
    · rfl
    · simp [h.1]

/-- On a path with at least one colon, `abs_path_in_wsl` keeps exactly
the part before the first colon (lowercased) and the part between the
first and the second colon (or the end); everything after a second
colon — `rest` is arbitrary and may itself contain any number of
further colons — is dropped.  Both conjuncts produce the same output. -/
theorem abs_path_in_wsl_segments (d r1 rest : Str) (v : Bool)
    (hd : hasChar ':' d = false) (h1 : hasChar ':' r1 = false) :
    abs_path_in_wsl (d ++ ':' :: r1) v
        = Except.ok (pyReplaceBS ("/mnt/".toList ++ pyLower d ++ r1))
      ∧ abs_path_in_wsl (d ++ ':' :: (r1 ++ ':' :: rest)) v
        = Except.ok (pyReplaceBS ("/mnt/".toList ++ pyLower d ++ r1)) := by
  constructor
  · rw [abs_path_in_wsl, if_pos, pySplitChar_append _ _ _ hd, pySplitChar_of_not_mem _ _ h1]
    rw [hasChar_append, hasChar_self_cons, Bool.or_true]
  · rw [abs_path_in_wsl, if_pos, pySplitChar_append _ _ _ hd, pySplitChar_append _ _ _ h1]
    rw [hasChar_append, hasChar_self_cons, Bool.or_true]

theorem containsSF_cons (c : Char) (t : Str) :
    containsSF (c :: t) = (startsSF (c :: t) || containsSF t) := by
  rcases t with _ | ⟨d, _ | ⟨e, t2⟩⟩ <;> rfl

theorem startsSF_append_marker (c : Char) (t b : Str) (h : startsSF (c :: t) = false) :
    startsSF (c :: (t ++ 'S' :: 'F' :: ':' :: b)) = false := by
  rcases t with _ | ⟨d, _ | ⟨e, t2⟩⟩
  · simp [startsSF]
  · simp [startsSF]
  · simpa [startsSF] using h

theorem splitSF_cons_not (c : Char) (t : Str) (h : startsSF (c :: t) = false) :
    splitSF (c :: t) = consHead c (splitSF t) := by
  rcases t with _ | ⟨d, _ | ⟨e, t2⟩⟩
  · rfl
  · rfl
  · have hg : (c == 'S' && d == 'F' && e == ':') = false := by simpa [startsSF] using h
    simp [splitSF, hg]

theorem splitSF_marker (b : Str) : splitSF ('S' :: 'F' :: ':' :: b) = [] :: splitSF b := by rfl

theorem splitSF_no_marker (s : Str) (h : containsSF s = false) : splitSF s = [s] := by
  induction s with
  | nil => rfl
  | cons c t ih =>
    rw [containsSF_cons, Bool.or_eq_false_iff] at h
    rw [splitSF_cons_not _ _ h.1, ih h.2]
    rfl

theorem containsSF_append_marker (a b : Str) :
    containsSF (a ++ 'S' :: 'F' :: ':' :: b) = true := by
  induction a with
  | nil => simp [containsSF]
  | cons c t ih =>
    rw [List.cons_append, containsSF_cons, ih, Bool.or_true]

theorem splitSF_append (a b : Str) (h : containsSF a = false) :
    splitSF (a ++ 'S' :: 'F' :: ':' :: b) = a :: splitSF b := by
  induction a with
  | nil => exact splitSF_marker b
  | cons c t ih =>
    rw [containsSF_cons, Bool.or_eq_false_iff] at h
    rw [List.cons_append, splitSF_cons_not _ _ (startsSF_append_marker _ _ _ h.1), ih h.2]
    rfl

theorem rewrite_sf_line_no_marker (line : Str) (h : containsSF line = false) :
    rewrite_sf_line line = Except.ok line := by
  rw [rewrite_sf_line, if_neg]
  simp [h]

theorem rewrite_sf_line_split (a b : Str) (ha : containsSF a = false)
    (hb : containsSF b = false) :
    rewrite_sf_line (a ++ 'S' :: 'F' :: ':' :: b)
      = (abs_path_in_wsl b).map (fun p => 'S' :: 'F' :: ':' :: p) := by
  rw [rewrite_sf_line, if_pos]
  · rw [splitSF_append _ _ ha, splitSF_no_marker _ hb]
  · rw [containsSF_append_marker]

theorem rewrite_sf_line_split_multi (a b rest : Str) (ha : containsSF a = false)
    (hb : containsSF b = false) :
    rewrite_sf_line (a ++ 'S' :: 'F' :: ':' :: (b ++ 'S' :: 'F' :: ':' :: rest))
      = (abs_path_in_wsl b).map (fun p => 'S' :: 'F' :: ':' :: p) := by
  rw [rewrite_sf_line, if_pos]
  · rw [splitSF_append _ _ ha, splitSF_append _ _ hb]
  · rw [containsSF_append_marker]

theorem exMapM_ok_get {α β : Type} (f : α → Except String β) :
    ∀ (xs : List α) (l : List β), exMapM f xs = Except.ok l →
      l.length = xs.length
        ∧ ∀ (i : Nat) (h1 : i < xs.length) (h2 : i < l.length),
            f (xs.get ⟨i, h1⟩) = Except.ok (l.get ⟨i, h2⟩) := by
  intro xs
  induction xs with
  | nil =>
    intro l hl
    simp only [exMapM] at hl
    cases hl
    exact ⟨rfl, fun i h1 _ => absurd h1 (Nat.not_lt_zero i)⟩
  | cons x t ih =>
    intro l hl
    simp only [exMapM] at hl
    cases hfx : f x with
    | error e => rw [hfx] at hl; cases hl
    | ok y =>
      rw [hfx] at hl
      cases ht : exMapM f t with
      | error e => rw [ht] at hl; cases hl
      | ok ys =>
        rw [ht] at hl
        cases hl
        obtain ⟨hlen, hget⟩ := ih ys ht
        refine ⟨by simp [hlen], ?_⟩
        intro i h1 h2
        cases i with
        | zero => simpa using hfx
        | succ j =>
          have h1' : j < t.length := by simpa using h1
          have h2' : j < ys.length := by simpa using h2
          simpa using hget j h1' h2'

theorem exMapM_first_error {α β : Type} (f : α → Except String β) (x : α) (m : String)
    (hx : f x = Except.error m) :
    ∀ (pre post : List α), (∀ a ∈ pre, exIsOk (f a) = true) →
      exMapM f (pre ++ x :: post) = Except.error m := by
  intro pre
  induction pre with
  | nil =>
    intro post _
    simp only [List.nil_append, exMapM, hx]
  | cons p t ih =>
    intro post hok
    have hp : exIsOk (f p) = true := hok p (List.mem_cons_self p t)
    have ht : ∀ a ∈ t, exIsOk (f a) = true := fun a haa => hok a (List.mem_cons_of_mem p haa)
    cases hfp : f p with
    | error e => rw [hfp] at hp; cases hp
    | ok y =>
      simp only [List.cons_append, exMapM, hfp, List.append_eq]
      rw [ih post ht]

theorem exMapM_pure {α β : Type} (g : α → β) (l : List α) :
    exMapM (fun a => Except.ok (g a)) l = Except.ok (l.map g) := by
  induction l with
  | nil => rfl
  | cons x t ih => simp [exMapM, ih]

/-- A checked loop whose body invokes one argument list per item
aborts at the first item whose subprocess exits non-zero. -/
theorem exMapM_checked_abort (env : Env) (argsOf : Entry → List Str)
    (pre : List Entry) (x : Entry) (post : List Entry)
    (hok : ∀ a ∈ pre, env.exitCode (argsOf a) = 0) (hx : env.exitCode (argsOf x) ≠ 0) :
    exMapM (fun it =>
        if env.exitCode (argsOf it) == 0 then Except.ok (argsOf it)
        else Except.error calledProcessErrorMsg) (pre ++ x :: post)
      = Except.error calledProcessErrorMsg := by
  refine exMapM_first_error _ x _ ?_ pre post ?_
  · have hb : (env.exitCode (argsOf x) == 0) = false := by simpa using hx
    simp [hb]
  · intro a ha
    have hb : (env.exitCode (argsOf a) == 0) = true := by simpa using hok a ha
    simp [hb, exIsOk]

theorem envLookup_set_same (m : EnvMap) (k v : Str) :
    envLookup k (envSet m k v) = some v := by
  simp [envLookup, envSet]

theorem envLookup_set_other (m : EnvMap) (k v k2 : Str) (h : k2 ≠ k) :
    envLookup k2 (envSet m k v) = envLookup k2 m := by
  have : (k == k2) = false := by
    simp only [beq_eq_false_iff_ne, ne_eq]
    exact fun he => h he.symm
  simp [envLookup, envSet, this]

/-- C1: on the path `"C:\a:b"`, which has a drive-letter prefix and a
second colon, the translation keeps only the segment between the two
colons: it returns `"/mnt/c/a"` and not the remainder-preserving
`"/mnt/c/a:b"` that the claim describes (the claimed value is spelled
with the translation pipeline of the source on the full remainder). -/
theorem C1_counterexample :
    abs_path_in_wsl ("C:\\a:b".toList) = Except.ok ("/mnt/c/a".toList)
      ∧ pyReplaceBS ("/mnt/".toList ++ pyLower ("C".toList) ++ "\\a:b".toList)
        = "/mnt/c/a:b".toList
      ∧ abs_path_in_wsl ("C:\\a:b".toList) ≠ Except.ok ("/mnt/c/a:b".toList) := by
  refine ⟨rfl, rfl, fun h => ?_⟩
  have h2 := Except.ok.inj h
  exact absurd h2 (by decide)

/-- C1 (amended): for a host path `<d>:<r1>` whose remainder has no
further colon the translation returns `"/mnt/"` followed by the
lowercased prefix and the remainder with backslashes replaced; when
the path contains more than one colon, as in `<d>:<r1>:<rest>` with
`<rest>` arbitrary (it may contain any number of further colons), the
whole part after the second colon is dropped and the result is the
same as for `<d>:<r1>`. -/
theorem C1_amended_translation (d r1 rest : Str) (v : Bool) (hd : hasChar ':' d = false)
    (h1 : hasChar ':' r1 = false) :
    abs_path_in_wsl (d ++ ':' :: r1) v
        = Except.ok (pyReplaceBS ("/mnt/".toList ++ pyLower d ++ r1))
      ∧ abs_path_in_wsl (d ++ ':' :: (r1 ++ ':' :: rest)) v
        = Except.ok (pyReplaceBS ("/mnt/".toList ++ pyLower d ++ r1)) :=
  abs_path_in_wsl_segments d r1 rest v hd h1

theorem C1_amended_translation_witness :
    abs_path_in_wsl ("C".toList ++ ':' :: ("\\a".toList ++ ':' :: "b:c".toList)) false
      = Except.ok (pyReplaceBS ("/mnt/".toList ++ pyLower ("C".toList) ++ "\\a".toList)) :=
  (C1_amended_translation ("C".toList) ("\\a".toList) ("b:c".toList) false
    (by decide) (by decide)).2

/-- C2: translating a drive-letter path once yields a colon-free path,
and running the translation a second time on that output does not
return it unchanged: the unconditional `log(verbose, tokens)` call
evaluates the unassigned local `tokens` and raises
`UnboundLocalError`, so the claimed idempotence fails on every
translated output. -/
theorem C2_retranslation_raises :
    abs_path_in_wsl ("C:\\dir\\file.lcov".toList)
        = Except.ok ("/mnt/c/dir/file.lcov".toList)
      ∧ abs_path_in_wsl ("/mnt/c/dir/file.lcov".toList)
        = Except.error unboundTokensMsg :=
  ⟨rfl, rfl⟩

/-- C9: for every input without a colon the translation function
raises `UnboundLocalError` on the logging line instead of returning
the input, whatever the verbose flag. -/
theorem C9_unbound_local_on_no_colon (p : Str) (v : Bool) (h : hasChar ':' p = false) :
    abs_path_in_wsl p v = Except.error unboundTokensMsg := by
  rw [abs_path_in_wsl, if_neg]
  simp [h]

theorem C9_unbound_local_witness :
    abs_path_in_wsl ("relative/path".toList) true = Except.error unboundTokensMsg :=
  C9_unbound_local_on_no_colon ("relative/path".toList) true (by decide)

/-- C3: the file `app.test` has a base name that contains the fragment
`"test"` case-insensitively, is a regular file and is executable, so
the claimed predicate accepts it; the code filters on the pathlib stem
`"app"` instead, finds nothing and exits with the empty-result error
instead of returning the file. -/
theorem C3_counterexample :
    hasSub ("test".toList) (pyLower ("app.test".toList)) = true
      ∧ (⟨"bin".toList, "app.test".toList, true, true⟩ : Entry).isFile = true
      ∧ (⟨"bin".toList, "app.test".toList, true, true⟩ : Entry).executable = true
      ∧ find_test_apps ⟨fun _ => true, fun _ => 0, false⟩
          [⟨"bin".toList, "app.test".toList, true, true⟩]
        = Except.error "No test application found!" :=
  ⟨by decide, rfl, rfl, rfl⟩

/-- C3 (amended): discovery accepts a file exactly when its stem — the
base name without the final extension — contains `"test"`
case-insensitively and it is an executable regular file (Unix) or has
the `.exe` extension (Windows); it errors out exactly when no file
matches, and otherwise returns every matching file. -/
theorem C3_amended_discovery (env : Env) (fs : List Entry) :
    find_test_apps env fs = find_test_apps_spec env fs :=
  find_test_apps_eq_spec env fs

/-- C4: the line `"XSF:C:\a"` does not begin with the marker `"SF:"`,
so by the claim it should be written back unchanged; the code tests
containment, rewrites it and drops the `"X"` prefix. -/
theorem C4_counterexample :
    rewrite_sf_line ("XSF:C:\\a".toList) = Except.ok ("SF:/mnt/c/a".toList)
      ∧ "XSF:C:\\a".toList ≠ "SF:/mnt/c/a".toList :=
  ⟨rfl, by decide⟩

/-- C4 (amended): a line without the marker `"SF:"` anywhere passes
through unchanged; a line `<a>SF:<b>` whose marker is the last one is
rewritten to the marker followed by the translation of the portion
`b` running to the end of the line; and a line
`<a>SF:<b>SF:<rest>` with two or more markers (`rest` arbitrary, so
it may hold further markers) is rewritten to the marker followed by
the translation of the portion `b` between the first marker and the
next occurrence.  In each rewritten case the text `a` before the
first marker is discarded and any translation failure propagates. -/
theorem C4_amended_rewrite (line a b rest : Str) :
    (containsSF line = false → rewrite_sf_line line = Except.ok line)
      ∧ (containsSF a = false → containsSF b = false →
          rewrite_sf_line (a ++ 'S' :: 'F' :: ':' :: b)
            = (abs_path_in_wsl b).map (fun p => 'S' :: 'F' :: ':' :: p))
      ∧ (containsSF a = false → containsSF b = false →
          rewrite_sf_line (a ++ 'S' :: 'F' :: ':' :: (b ++ 'S' :: 'F' :: ':' :: rest))
            = (abs_path_in_wsl b).map (fun p => 'S' :: 'F' :: ':' :: p)) :=
  ⟨rewrite_sf_line_no_marker line, rewrite_sf_line_split a b,
    rewrite_sf_line_split_multi a b rest⟩

theorem C4_amended_rewrite_witness :
    rewrite_sf_line ("X".toList ++ 'S' :: 'F' :: ':' :: ("C:\\p".toList ++ 'S' :: 'F' :: ':' :: "q".toList))
      = (abs_path_in_wsl ("C:\\p".toList)).map (fun p => 'S' :: 'F' :: ':' :: p) :=
  (C4_amended_rewrite [] ("X".toList) ("C:\\p".toList) ("q".toList)).2.2 (by decide) (by decide)

/-- C5: missing required tools (probed on the invoking host) and every
empty discovery result — test binaries, `.profraw`, `.profdata`,
`.lcov` and `.gcda` files — terminate the run with the corresponding
descriptive message carried by a non-zero `sys.exit`. -/
theorem C5_empty_discovery_and_missing_tools_abort :
    (∀ (env : Env) (tool : Str), env.onPath ("llvm-profdata".toList) = false →
        detect_tools env tool
          = Except.error "Clang tools not found! Make sure clang tools are added to system path.")
      ∧ (∀ (env : Env) (tool : Str), env.onPath ("llvm-cov".toList) = false →
          detect_tools env tool
            = Except.error "Clang tools not found! Make sure clang tools are added to system path.")
      ∧ (∀ (env : Env) (tool : Str), env.onPath ("llvm-profdata".toList) = true →
          env.onPath ("llvm-cov".toList) = true → env.isWindows = true →
          env.onPath ("wsl".toList) = false →
          detect_tools env tool
            = Except.error "WSL not found! Generating coverage reports require use of Linux tools. Make sure WSL was set up.")
      ∧ (∀ (env : Env), env.onPath ("llvm-profdata".toList) = true →
          env.onPath ("llvm-cov".toList) = true → env.isWindows = false →
          env.onPath ("lcov".toList) = false →
          detect_tools env ("lcov".toList)
            = Except.error "Linux tools not found! Make sure lcov package is installed.")
      ∧ (∀ (env : Env), env.onPath ("llvm-profdata".toList) = true →
          env.onPath ("llvm-cov".toList) = true → env.isWindows = false →
          env.onPath ("gcovr".toList) = false →
          detect_tools env ("gcovr".toList)
            = Except.error "Linux tools not found! Make sure gcovr package is installed.")
      ∧ (∀ (env : Env) (fs : List Entry),
          fs.filter (discovery_spec_pred env.isWindows) = [] →
          find_test_apps env fs = Except.error "No test application found!")
      ∧ (∀ (env : Env) (fs : List Entry) (sp : Str),
          find_files fs FILENAME_FRAGMENT ("*.profraw".toList) = [] →
          generate_profdata env fs sp = Except.error "No .profraw files found!")
      ∧ (∀ (env : Env) (fs : List Entry) (apps : List Entry) (sp : Str),
          find_files fs FILENAME_FRAGMENT ("*.profdata".toList) = [] →
          generate_lcov env fs apps sp = Except.error "No .profdata files found! Exiting!")
      ∧ (∀ (env : Env) (fs : List Entry) (sp d n : Str) (w : Bool),
          find_files fs FILENAME_FRAGMENT ("*.lcov".toList) = [] →
          generate_info_clang env fs sp d n w = Except.error "No .profdata files found!")
      ∧ (∀ (env : Env) (fs : List Entry) (sp d n : Str) (w : Bool),
          find_files fs FILENAME_FRAGMENT ("*.gcda".toList) = [] →
          generate_info_gcc env fs sp d n w = Except.error "No .gcda files found!")
      ∧ (∀ (env : Env) (fs : List Entry) (sp d e : Str) (w : Bool),
          find_files fs FILENAME_FRAGMENT ("*.gcda".toList) = [] →
          generate_gcovr_report env fs sp d e w = Except.error "No .gcda files found!") := by
  refine ⟨?_, ?_, ?_, ?_, ?_, ?_, ?_, ?_, ?_, ?_, ?_⟩
  · intro env tool h
    simp_all [detect_tools, check_if_app_exists]
  · intro env tool h
    simp_all [detect_tools, check_if_app_exists]
  · intro env tool h1 h2 hw h3
    simp_all [detect_tools, check_if_app_exists]
  · intro env h1 h2 hw h3
    simp_all [detect_tools, check_if_app_exists]
  · intro env h1 h2 hw h3
    simp_all [detect_tools, check_if_app_exists,
      (by decide : (("gcovr".toList == "lcov".toList) : Bool) = false)]
  · intro env fs h
    rw [find_test_apps_eq_spec]
    simp_all [find_test_apps_spec]
  · intro env fs sp h
    simp_all [generate_profdata]
  · intro env fs apps sp h
    simp_all [generate_lcov]
  · intro env fs sp d n w h
    simp_all [generate_info_clang]
  · intro env fs sp d n w h
    simp_all [generate_info_gcc]
  · intro env fs sp d e w h
    simp_all [generate_gcovr_report]

theorem C5_abort_witness :
    detect_tools ⟨fun _ => false, fun _ => 0, false⟩ ("lcov".toList)
      = Except.error "Clang tools not found! Make sure clang tools are added to system path." :=
  C5_empty_discovery_and_missing_tools_abort.1 ⟨fun _ => false, fun _ => 0, false⟩
    ("lcov".toList) rfl

/-- C6: in an environment where every probe subprocess exits with
status 1, the detection stage still reports success — the claimed
abort on any non-zero tool exit does not happen at the tool-detection
stage, whose probes ignore the exit status. -/
theorem C6_counterexample :
    (⟨fun _ => true, fun _ => 1, false⟩ : Env).exitCode
        ["llvm-profdata".toList, "--version".toList] ≠ 0
      ∧ detect_tools ⟨fun _ => true, fun _ => 1, false⟩ ("lcov".toList) = Except.ok false :=
  ⟨by decide, rfl⟩

/-- C6 (amended): the tool-detection stage is insensitive to the exit
status of its probe subprocesses, while every subprocess invoked with
checking aborts its stage at the first non-zero exit: the test-binary
loop, the per-file profdata merge loop, the per-application lcov
export loop, and the single checked invocations of the clang info
merge, the gcc info capture, the gcovr report and the genhtml report
(the latter four as invoked without the wsl wrapper). -/
theorem C6_amended_abort_policy :
    (∀ (p : Str → Bool) (e e2 : List Str → Nat) (w : Bool) (tool : Str),
        detect_tools ⟨p, e, w⟩ tool = detect_tools ⟨p, e2, w⟩ tool)
      ∧ (∀ (env : Env) (parentEnv : EnvMap) (compiler : Str) (pre : List Entry)
          (app : Entry) (post : List Entry),
          (∀ a ∈ pre, env.exitCode [entryPath a] = 0) →
          env.exitCode [entryPath app] ≠ 0 →
          run_test_apps env parentEnv (pre ++ app :: post) compiler
            = Except.error calledProcessErrorMsg)
      ∧ (∀ (env : Env) (fs : List Entry) (sp : Str) (pre : List Entry) (x : Entry)
          (post : List Entry),
          find_files fs FILENAME_FRAGMENT ("*.profraw".toList) = pre ++ x :: post →
          (∀ a ∈ pre, env.exitCode (profdata_merge_args a) = 0) →
          env.exitCode (profdata_merge_args x) ≠ 0 →
          generate_profdata env fs sp = Except.error calledProcessErrorMsg)
      ∧ (∀ (env : Env) (fs : List Entry) (sp : Str) (pre : List Entry) (x : Entry)
          (post : List Entry),
          find_files fs FILENAME_FRAGMENT ("*.profdata".toList) ≠ [] →
          (∀ a ∈ pre, env.exitCode (lcov_export_args a) = 0) →
          env.exitCode (lcov_export_args x) ≠ 0 →
          generate_lcov env fs (pre ++ x :: post) sp = Except.error calledProcessErrorMsg)
      ∧ (∀ (env : Env) (fs : List Entry) (sp d n : Str),
          find_files fs FILENAME_FRAGMENT ("*.lcov".toList) ≠ [] →
          env.exitCode (info_clang_args fs d n) ≠ 0 →
          generate_info_clang env fs sp d n false = Except.error calledProcessErrorMsg)
      ∧ (∀ (env : Env) (fs : List Entry) (sp d n : Str),
          find_files fs FILENAME_FRAGMENT ("*.gcda".toList) ≠ [] →
          env.exitCode (info_gcc_args sp d n) ≠ 0 →
          generate_info_gcc env fs sp d n false = Except.error calledProcessErrorMsg)
      ∧ (∀ (env : Env) (fs : List Entry) (sp d e : Str),
          find_files fs FILENAME_FRAGMENT ("*.gcda".toList) ≠ [] →
          env.exitCode (gcovr_args sp d e) ≠ 0 →
          generate_gcovr_report env fs sp d e false = Except.error calledProcessErrorMsg)
      ∧ (∀ (env : Env) (d n e : Str),
          env.exitCode (html_args d n e) ≠ 0 →
          generate_html_report env d n e false = Except.error calledProcessErrorMsg) := by
  refine ⟨?_, ?_, ?_, ?_, ?_, ?_, ?_, ?_⟩
  · intro p e e2 w tool
    rfl
  · intro env parentEnv compiler pre app post hok hx
    refine exMapM_first_error _ app calledProcessErrorMsg ?_ pre post ?_
    · have hb : (env.exitCode [entryPath app] == 0) = false := by
        simpa using hx
      simp [run_one_test_app, hb]
    · intro a ha
      have h0 := hok a ha
      simp [run_one_test_app, h0, exIsOk]
  · intro env fs sp pre x post hsplit hok hx
    have hne : ((pre ++ x :: post : List Entry)).isEmpty = false := by simp
    simp only [generate_profdata, hsplit, hne, Bool.false_eq_true, if_false]
    exact exMapM_checked_abort env profdata_merge_args pre x post hok hx
  · intro env fs sp pre x post hprof hok hx
    have hne : (find_files fs FILENAME_FRAGMENT ("*.profdata".toList)).isEmpty = false := by
      simpa using hprof
    simp only [generate_lcov, hne, Bool.false_eq_true, if_false]
    exact exMapM_checked_abort env lcov_export_args pre x post hok hx
  · intro env fs sp d n hlcov hx
    have hne : (find_files fs FILENAME_FRAGMENT ("*.lcov".toList)).isEmpty = false := by
      simpa using hlcov
    have hb : (env.exitCode (info_clang_args fs d n) == 0) = false := by simpa using hx
    simp only [info_clang_args] at hb
    simp only [generate_info_clang, hne, Bool.false_eq_true, if_false, Except.bind,
      exMapM_pure, List.map_map, Function.comp_def, hb]
  · intro env fs sp d n hgcda hx
    have hne : (find_files fs FILENAME_FRAGMENT ("*.gcda".toList)).isEmpty = false := by
      simpa using hgcda
    have hb : (env.exitCode (info_gcc_args sp d n) == 0) = false := by simpa using hx
    simp only [info_gcc_args] at hb
    simp only [generate_info_gcc, hne, Bool.false_eq_true, if_false, hb]
  · intro env fs sp d e hgcda hx
    have hne : (find_files fs FILENAME_FRAGMENT ("*.gcda".toList)).isEmpty = false := by
      simpa using hgcda
    have hb : (env.exitCode (gcovr_args sp d e) == 0) = false := by simpa using hx
    simp only [gcovr_args] at hb
    simp only [generate_gcovr_report, hne, Bool.false_eq_true, if_false, hb]
  · intro env d n e hx
    have hb : (env.exitCode (html_args d n e) == 0) = false := by simpa using hx
    simp only [html_args] at hb
    simp only [generate_html_report, Bool.false_eq_true, if_false, Except.bind, hb]

theorem C6_amended_abort_policy_witness :
    run_test_apps ⟨fun _ => true, fun _ => 1, false⟩ []
        ([] ++ (⟨"bin".toList, "my_test".toList, true, true⟩ : Entry) :: []) ("gcc".toList)
      = Except.error calledProcessErrorMsg :=
  C6_amended_abort_policy.2.1 ⟨fun _ => true, fun _ => 1, false⟩ [] ("gcc".toList) []
    ⟨"bin".toList, "my_test".toList, true, true⟩ []
    (fun a ha => absurd ha (List.not_mem_nil a)) (by decide)

/-- C7: with the compatibility layer enabled, neither gcc stage
reaches its tool: in both, `args.insert(0, "wsl")` runs before `args`
is assigned, so each raises `UnboundLocalError` instead of prepending
the shell invocation and translating the output path. -/
theorem C7_wsl_gcc_stages_raise :
    generate_info_gcc ⟨fun _ => true, fun _ => 0, true⟩
        [⟨"build".toList, "my_test.gcda".toList, true, false⟩]
        ("C:\\proj".toList) ("C:\\proj\\docs\\coverage".toList) ("coverage.info".toList) true
      = Except.error unboundArgsMsg
    ∧ generate_gcovr_report ⟨fun _ => true, fun _ => 0, true⟩
        [⟨"build".toList, "my_test.gcda".toList, true, false⟩]
        ("C:\\proj".toList) ("C:\\proj\\docs\\coverage".toList) [] true
      = Except.error unboundArgsMsg :=
  ⟨rfl, rfl⟩

/-- C8: the two distinct test binaries `a/test` and `b/test` are both
run with `LLVM_PROFILE_FILE = "test.profraw"` — the variable is set per
test run but its value is derived from the base name only, so it is
not distinct across these two runs, contradicting the claimed
distinct-value-per-run. -/
theorem C8_counterexample :
    (⟨"a".toList, "test".toList, true, true⟩ : Entry)
        ≠ ⟨"b".toList, "test".toList, true, true⟩
      ∧ run_test_apps ⟨fun _ => true, fun _ => 0, false⟩ []
          [⟨"a".toList, "test".toList, true, true⟩, ⟨"b".toList, "test".toList, true, true⟩]
          ("clang".toList)
        = Except.ok
            [("a/test".toList, [("LLVM_PROFILE_FILE".toList, "test.profraw".toList)]),
              ("b/test".toList, [("LLVM_PROFILE_FILE".toList, "test.profraw".toList)])] :=
  ⟨by decide, rfl⟩

theorem run_one_test_app_ok {env : Env} {parentEnv : EnvMap} {compiler : Str} {app : Entry}
    {pe : Str × EnvMap} (h : run_one_test_app env parentEnv compiler app = Except.ok pe) :
    pe = (entryPath app,
      if pyLower compiler == "clang".toList then
        envSet parentEnv ("LLVM_PROFILE_FILE".toList) (pyWithSuffix app.name (".profraw".toList))
      else parentEnv) := by
  simp only [run_one_test_app] at h
  split at h
  · exact (Except.ok.inj h).symm
  · exact Except.noConfusion h

/-- C8 (amended): when clang is selected, each test binary runs with
`LLVM_PROFILE_FILE` bound to its file name with the final extension
replaced by `.profraw` (a value computed per run from the base name,
equal for binaries sharing a base name) and every other variable as in
the parent environment; when gcc is selected the parent environment is
passed unchanged. -/
theorem C8_amended_environment (env : Env) (parentEnv : EnvMap) (apps : List Entry)
    (l : List (Str × EnvMap)) (i : Nat) (h1 : i < apps.length) (h2 : i < l.length) :
    (run_test_apps env parentEnv apps ("gcc".toList) = Except.ok l →
        (l.get ⟨i, h2⟩).2 = parentEnv)
      ∧ (run_test_apps env parentEnv apps ("clang".toList) = Except.ok l →
          envLookup ("LLVM_PROFILE_FILE".toList) (l.get ⟨i, h2⟩).2
              = some (pyWithSuffix (apps.get ⟨i, h1⟩).name (".profraw".toList))
            ∧ ∀ k : Str, k ≠ "LLVM_PROFILE_FILE".toList →
                envLookup k (l.get ⟨i, h2⟩).2 = envLookup k parentEnv) := by
  constructor
  · intro hrun
    obtain ⟨hlen, hget⟩ := exMapM_ok_get _ apps l hrun
    have hp := run_one_test_app_ok (hget i h1 h2)
    rw [hp]
    rfl
  · intro hrun
    obtain ⟨hlen, hget⟩ := exMapM_ok_get _ apps l hrun
    have hp := run_one_test_app_ok (hget i h1 h2)
    rw [hp]
    exact ⟨envLookup_set_same _ _ _, fun k hk => envLookup_set_other _ _ _ _ hk⟩

theorem C8_amended_environment_witness :
    envLookup ("LLVM_PROFILE_FILE".toList)
        ((([("bin/my_test".toList,
              [("LLVM_PROFILE_FILE".toList, "my_test.profraw".toList)])] :
            List (Str × EnvMap)).get ⟨0, by decide⟩).2)
      = some (pyWithSuffix
          ((([⟨"bin".toList, "my_test".toList, true, true⟩] : List Entry).get
            ⟨0, by decide⟩).name) (".profraw".toList)) :=
  ((C8_amended_environment ⟨fun _ => true, fun _ => 0, false⟩ []
      [⟨"bin".toList, "my_test".toList, true, true⟩]
      [("bin/my_test".toList, [("LLVM_PROFILE_FILE".toList, "my_test.profraw".toList)])]
      0 (by decide) (by decide)).2 rfl).1

/-- C10: in both gcc report paths the guard reported as checking for
`.gcno` files searches for `*.gcda` a second time, so whenever the
`.gcda` discovery is non-empty the run proceeds past the
`"No .gcno files found!"` guard even on a tree with no `.gcno` file at
all. -/
theorem C10_gcno_guard_checks_gcda (env : Env) (fs : List Entry) (sp d n e : Str) (w : Bool)
    (hnogcno : ∀ f ∈ fs, endsWithL (".gcno".toList) f.name = false)
    (hgcda : find_files fs FILENAME_FRAGMENT ("*.gcda".toList) ≠ []) :
    generate_info_gcc env fs sp d n w ≠ Except.error "No .gcno files found!"
      ∧ generate_gcovr_report env fs sp d e w ≠ Except.error "No .gcno files found!" := by
  have hne : (find_files fs FILENAME_FRAGMENT ("*.gcda".toList)).isEmpty = false := by
    simpa [List.isEmpty_iff] using hgcda
  constructor
  · rw [generate_info_gcc, if_neg (by simpa using hgcda), if_neg (by simpa using hgcda)]
    cases w
    · simp only [Bool.false_eq_true, if_false]
      split
      · simp
      · simp [calledProcessErrorMsg]
    · simp [unboundArgsMsg]
  · rw [generate_gcovr_report, if_neg (by simpa using hgcda), if_neg (by simpa using hgcda)]
    cases w
    · simp only [Bool.false_eq_true, if_false]
      split
      · simp
      · simp [calledProcessErrorMsg]
    · simp [unboundArgsMsg]

theorem C10_gcno_guard_witness :
    generate_info_gcc ⟨fun _ => true, fun _ => 0, false⟩
        [⟨"build".toList, "my_test.gcda".toList, true, false⟩]
        ("proj".toList) ("docs".toList) ("coverage.info".toList) false
      ≠ Except.error "No .gcno files found!" :=
  (C10_gcno_guard_checks_gcda ⟨fun _ => true, fun _ => 0, false⟩
    [⟨"build".toList, "my_test.gcda".toList, true, false⟩]
    ("proj".toList) ("docs".toList) ("coverage.info".toList) ([] : Str) false
    (by decide) (by decide)).1
